import Mathlib

/-!
# Verification of the counting-enforcer bot's message-validation logic

Shallow embedding of `src/bot.py` (`CountingBot.on_message` and the state it
mutates). The bot watches one guild/channel pair and enforces a counting game:
messages must be consecutive positive integers in ASCII digits, never two in a
row by the same author. Invalid messages are deleted once a count exists.
-/

namespace CountingBot

/-- Configuration supplied at startup: `self.server_id` and `self.channel_id`
in `CountingBot.__init__`. Identifiers are opaque, compared by equality only;
we model them as naturals. -/
structure Config where
  serverId : Nat
  channelId : Nat
deriving DecidableEq, Repr

/-- The bot's in-memory state: `self.count` (int or None) and
`self.previous_author_id` (str(author id) or None). Python's `str` is
injective on ids and the field is only compared for equality, so we keep the
id itself. -/
structure ChannelState where
  count : Option Nat
  previousAuthorId : Option Nat
deriving DecidableEq, Repr

/-- The state set up in `CountingBot.__init__`: both fields `None`. -/
def initialState : ChannelState := ⟨none, none⟩

/-- One incoming message event, as `on_message` reads it: author id, guild
(absent for direct messages), channel id, raw text, and whether the author is
the bot itself (`message.author == self.user`). -/
structure IncomingMessage where
  authorId : Nat
  guildId : Option Nat
  channelId : Nat
  rawText : String
  isFromSelf : Bool
deriving DecidableEq, Repr

/-- Classification of one message by `on_message`'s control flow:
`ignore` for the early returns before content is read, `accept` for the two
state-updating paths, `reject` for the delete/return paths. A `reject` path
in the code either deletes only when `self.count is not None`
(`suppress = true`, the empty-text and format-guard paths) or deletes
unconditionally (`suppress = false`, the increment and author-lock paths). -/
inductive Verdict where
  | ignore : Verdict
  | accept : Verdict
  | reject (suppress : Bool) : Verdict
deriving DecidableEq, Repr

/-- Python `str.isspace` for a single character: the whitespace set Python's
`str.strip()` removes (ASCII whitespace, the file/group/record/unit
separators, NEL, NBSP, and the Unicode space separators). -/
def pyIsSpace (c : Char) : Bool :=
  (0x09 ≤ c.toNat && c.toNat ≤ 0x0D) ||
  (0x1C ≤ c.toNat && c.toNat ≤ 0x1F) ||
  c.toNat == 0x20 || c.toNat == 0x85 || c.toNat == 0xA0 ||
  c.toNat == 0x1680 ||
  (0x2000 ≤ c.toNat && c.toNat ≤ 0x200A) ||
  c.toNat == 0x2028 || c.toNat == 0x2029 ||
  c.toNat == 0x202F || c.toNat == 0x205F || c.toNat == 0x3000

/-- Python `content.strip()`: drop leading and trailing whitespace. -/
def pyStrip (s : List Char) : List Char :=
  ((s.dropWhile pyIsSpace).reverse.dropWhile pyIsSpace).reverse

/-- One character of the regex class `[0-9]`: an ASCII digit. -/
def isAsciiDigit (c : Char) : Bool :=
  '0' ≤ c && c ≤ '9'

/-- Python `re.match(r'^[0-9]+$', content)` on a string with no trailing
newline (guaranteed here because the content was stripped): the text is
nonempty and every character is an ASCII digit. -/
def matchesDigits (s : List Char) : Bool :=
  !s.isEmpty && s.all isAsciiDigit

/-- Python `int(content)` on a string of ASCII digits: base-10 value,
leading zeros allowed, unbounded like Python's int. -/
def parseDigits (s : List Char) : Nat :=
  s.foldl (fun acc c => 10 * acc + (c.toNat - '0'.toNat)) 0

/-- The decision logic of `CountingBot.on_message`, read off the control flow
of `src/bot.py` lines 48-112: scope guards, strip, empty check, strict digit
regex, parse, initialization branch, increment check, author lock. -/
def evaluate (cfg : Config) (st : ChannelState) (msg : IncomingMessage) :
    Verdict :=
  if msg.isFromSelf = true then Verdict.ignore
  else if msg.guildId ≠ some cfg.serverId then Verdict.ignore
  else if msg.channelId ≠ cfg.channelId then Verdict.ignore
  else
    let content := pyStrip msg.rawText.toList
    if content = [] then Verdict.reject true
    else if matchesDigits content = false then Verdict.reject true
    else
      let parsedNumber := parseDigits content
      match st.count with
      | none => Verdict.accept
      | some c =>
        if parsedNumber ≠ c + 1 then Verdict.reject false
        else if some msg.authorId = st.previousAuthorId then
          Verdict.reject false
        else Verdict.accept

/-- Whether `on_message` calls `message.delete()` for this verdict: the
`suppress = true` reject paths delete only when `self.count is not None`
(checked against the pre-message state), the `suppress = false` paths delete
unconditionally, and the ignore/accept paths never delete. -/
def deletesMessage (st : ChannelState) : Verdict → Bool
  | Verdict.reject true => st.count.isSome
  | Verdict.reject false => true
  | _ => false

/-- `on_message` as a state transition: on the two accept paths the code sets
`self.count = parsed_number` and `self.previous_author_id` to the author;
every other path leaves the state untouched. -/
def step (cfg : Config) (st : ChannelState) (msg : IncomingMessage) :
    Verdict × ChannelState :=
  match evaluate cfg st msg with
  | Verdict.accept =>
      (Verdict.accept,
        ⟨some (parseDigits (pyStrip msg.rawText.toList)), some msg.authorId⟩)
  | v => (v, st)

/-- Process a list of messages in delivery order from a given state. -/
def runMessages (cfg : Config) (msgs : List IncomingMessage)
    (st : ChannelState) : ChannelState :=
  msgs.foldl (fun s m => (step cfg s m).2) st

/-- Unfolding of `evaluate` on an in-scope message: the three scope guards
pass and only the content-driven branches remain. -/
lemma evaluate_in_scope (cfg : Config) (st : ChannelState)
    (msg : IncomingMessage) (h1 : msg.isFromSelf = false)
    (h2 : msg.guildId = some cfg.serverId) (h3 : msg.channelId = cfg.channelId) :
    evaluate cfg st msg =
      (if pyStrip msg.rawText.toList = [] then Verdict.reject true
       else if matchesDigits (pyStrip msg.rawText.toList) = false then
         Verdict.reject true
       else
         match st.count with
         | none => Verdict.accept
         | some c =>
           if parseDigits (pyStrip msg.rawText.toList) ≠ c + 1 then
             Verdict.reject false
           else if some msg.authorId = st.previousAuthorId then
             Verdict.reject false
           else Verdict.accept) := by
  simp [evaluate, h1, h2, h3]

/-- Unfolding of `evaluate` on an in-scope message with the count set. -/
lemma evaluate_in_scope_some (cfg : Config) (st : ChannelState)
    (msg : IncomingMessage) (c : Nat) (h1 : msg.isFromSelf = false)
    (h2 : msg.guildId = some cfg.serverId) (h3 : msg.channelId = cfg.channelId)
    (hc : st.count = some c) :
    evaluate cfg st msg =
      (if pyStrip msg.rawText.toList = [] then Verdict.reject true
       else if matchesDigits (pyStrip msg.rawText.toList) = false then
         Verdict.reject true
       else if parseDigits (pyStrip msg.rawText.toList) ≠ c + 1 then
         Verdict.reject false
       else if some msg.authorId = st.previousAuthorId then
         Verdict.reject false
       else Verdict.accept) := by
  rw [evaluate_in_scope cfg st msg h1 h2 h3, hc]

/-- Any of the three scope guards firing yields the ignore verdict. -/
lemma evaluate_scope_ignore (cfg : Config) (st : ChannelState)
    (msg : IncomingMessage)
    (h : msg.isFromSelf = true ∨ msg.guildId ≠ some cfg.serverId ∨
         msg.channelId ≠ cfg.channelId) :
    evaluate cfg st msg = Verdict.ignore := by
  unfold evaluate
  rcases h with h | h | h
  · rw [if_pos h]
  · by_cases hs : msg.isFromSelf = true
    · rw [if_pos hs]
    · rw [if_neg hs, if_pos h]
  · by_cases hs : msg.isFromSelf = true
    · rw [if_pos hs]
    · by_cases hg : msg.guildId ≠ some cfg.serverId
      · rw [if_neg hs, if_pos hg]
      · rw [if_neg hs, if_neg hg, if_pos h]

/-- The verdict component of a step is the evaluation verdict. -/
lemma step_fst (cfg : Config) (st : ChannelState) (msg : IncomingMessage) :
    (step cfg st msg).1 = evaluate cfg st msg := by
  rcases hv : evaluate cfg st msg with _ | _ | b <;> simp [step, hv]

/-- On an accepting evaluation, the step stores the parsed value and the
author, together. -/
lemma step_snd_accept (cfg : Config) (st : ChannelState)
    (msg : IncomingMessage) (hv : evaluate cfg st msg = Verdict.accept) :
    (step cfg st msg).2 =
      ⟨some (parseDigits (pyStrip msg.rawText.toList)), some msg.authorId⟩ := by
  simp [step, hv]

/-- On a non-accepting evaluation, the step leaves the state untouched. -/
lemma step_snd_of_ne_accept (cfg : Config) (st : ChannelState)
    (msg : IncomingMessage) (hv : evaluate cfg st msg ≠ Verdict.accept) :
    (step cfg st msg).2 = st := by
  rcases h : evaluate cfg st msg with _ | _ | b
  · simp [step, h]
  · exact absurd h hv
  · simp [step, h]

/-- With the count unset, evaluation never reaches the unconditional-delete
reject paths. -/
lemma evaluate_cases_uninit (cfg : Config) (st : ChannelState)
    (msg : IncomingMessage) (h : st.count = none) :
    evaluate cfg st msg = Verdict.ignore ∨
    evaluate cfg st msg = Verdict.reject true ∨
    evaluate cfg st msg = Verdict.accept := by
  by_cases hscope : msg.isFromSelf = true ∨ msg.guildId ≠ some cfg.serverId ∨
      msg.channelId ≠ cfg.channelId
  · exact Or.inl (evaluate_scope_ignore cfg st msg hscope)
  · push_neg at hscope
    obtain ⟨hs, hg, hch⟩ := hscope
    rw [evaluate_in_scope cfg st msg (by simpa using hs) hg hch, h]
    by_cases hl : pyStrip msg.rawText.toList = []
    · rw [if_pos hl]; exact Or.inr (Or.inl rfl)
    · rw [if_neg hl]
      by_cases hm : matchesDigits (pyStrip msg.rawText.toList) = false
      · rw [if_pos hm]; exact Or.inr (Or.inl rfl)
      · rw [if_neg hm]; exact Or.inr (Or.inr rfl)

/-- A step preserves the count/author both-or-neither invariant. -/
lemma step_snd_together (cfg : Config) (st : ChannelState)
    (msg : IncomingMessage)
    (h : st.count.isSome = st.previousAuthorId.isSome) :
    ((step cfg st msg).2).count.isSome =
      ((step cfg st msg).2).previousAuthorId.isSome := by
  by_cases hv : evaluate cfg st msg = Verdict.accept
  · rw [step_snd_accept cfg st msg hv]
    rfl
  · rw [step_snd_of_ne_accept cfg st msg hv]
    exact h

/-- A run of messages preserves the count/author both-or-neither invariant. -/
lemma runMessages_together (cfg : Config) (msgs : List IncomingMessage)
    (st : ChannelState) (h : st.count.isSome = st.previousAuthorId.isSome) :
    (runMessages cfg msgs st).count.isSome =
      (runMessages cfg msgs st).previousAuthorId.isSome := by
  induction msgs generalizing st with
  | nil => exact h
  | cons m ms ih => exact ih ((step cfg st m).2) (step_snd_together cfg st m h)

/-- An accepting evaluation from an initialized state means the parsed value
is exactly the successor of the current count. -/
lemma evaluate_accept_parse (cfg : Config) (st : ChannelState)
    (msg : IncomingMessage) (c : Nat) (hc : st.count = some c)
    (hacc : evaluate cfg st msg = Verdict.accept) :
    parseDigits (pyStrip msg.rawText.toList) = c + 1 := by
  by_cases hscope : msg.isFromSelf = true ∨ msg.guildId ≠ some cfg.serverId ∨
      msg.channelId ≠ cfg.channelId
  · rw [evaluate_scope_ignore cfg st msg hscope] at hacc
    exact absurd hacc (by decide)
  · push_neg at hscope
    obtain ⟨hs, hg, hch⟩ := hscope
    rw [evaluate_in_scope_some cfg st msg c (by simpa using hs) hg hch hc]
      at hacc
    by_cases hl : pyStrip msg.rawText.toList = []
    · rw [if_pos hl] at hacc
      exact absurd hacc (by decide)
    · rw [if_neg hl] at hacc
      by_cases hm : matchesDigits (pyStrip msg.rawText.toList) = false
      · rw [if_pos hm] at hacc
        exact absurd hacc (by decide)
      · rw [if_neg hm] at hacc
        by_cases hn : parseDigits (pyStrip msg.rawText.toList) = c + 1
        · exact hn
        · rw [if_pos hn] at hacc
          exact absurd hacc (by decide)

/-- Claim C1 (code evaluation at the failing input): from the fresh state, an
in-scope message "0" is ACCEPTed and seeds the state with count 0, contrary
to the claim that "0" is always rejected and never initializes the state;
from an initialized state the same "0" is rejected as the claim says. -/
theorem zero_seeds_uninit_state :
    step ⟨1, 2⟩ initialState ⟨7, some 1, 2, "0", false⟩ =
      (Verdict.accept, ⟨some 0, some 7⟩) ∧
    step ⟨1, 2⟩ ⟨some 5, some 10⟩ ⟨7, some 1, 2, "0", false⟩ =
      (Verdict.reject false, ⟨some 5, some 10⟩) := by
  constructor
  · decide
  · decide

/-- Claim C2 counterexample: with count 5 and a different author, the in-scope
message whose text is "6 " is ACCEPTed, because the code strips the content
before the format guard; the guard does not reject it. -/
theorem trailing_space_not_rejected :
    evaluate ⟨1, 2⟩ ⟨some 5, some 10⟩ ⟨20, some 1, 2, "6 ", false⟩ =
      Verdict.accept := by
  decide

/-- Claim C2 amended: "+6", "6.0" and full-width "6" are rejected by the
format guard with suppression; "6 " is first trimmed, so it behaves exactly
like "6"; plain "06" passes the guard and is accepted whenever it parses to
count + 1 and the author differs. -/
theorem format_guard_strict (cfg : Config) (st : ChannelState) (a : Nat) :
    evaluate cfg st ⟨a, some cfg.serverId, cfg.channelId, "+6", false⟩ =
      Verdict.reject true ∧
    evaluate cfg st ⟨a, some cfg.serverId, cfg.channelId, "6.0", false⟩ =
      Verdict.reject true ∧
    evaluate cfg st ⟨a, some cfg.serverId, cfg.channelId, "６", false⟩ =
      Verdict.reject true ∧
    evaluate cfg st ⟨a, some cfg.serverId, cfg.channelId, "6 ", false⟩ =
      evaluate cfg st ⟨a, some cfg.serverId, cfg.channelId, "6", false⟩ ∧
    (∀ c : Nat, st.count = some c →
      parseDigits (pyStrip "06".toList) = c + 1 →
      some a ≠ st.previousAuthorId →
      evaluate cfg st ⟨a, some cfg.serverId, cfg.channelId, "06", false⟩ =
        Verdict.accept) := by
  refine ⟨?_, ?_, ?_, ?_, ?_⟩
  · rw [evaluate_in_scope cfg st _ rfl rfl rfl,
      if_neg (by decide : ¬ pyStrip "+6".toList = []),
      if_pos (by decide : matchesDigits (pyStrip "+6".toList) = false)]
  · rw [evaluate_in_scope cfg st _ rfl rfl rfl,
      if_neg (by decide : ¬ pyStrip "6.0".toList = []),
      if_pos (by decide : matchesDigits (pyStrip "6.0".toList) = false)]
  · rw [evaluate_in_scope cfg st _ rfl rfl rfl,
      if_neg (by decide : ¬ pyStrip "６".toList = []),
      if_pos (by decide : matchesDigits (pyStrip "６".toList) = false)]
  · rw [evaluate_in_scope cfg st _ rfl rfl rfl,
      evaluate_in_scope cfg st _ rfl rfl rfl,
      (by decide : pyStrip "6 ".toList = pyStrip "6".toList)]
  · intro c hc hn ha
    rw [evaluate_in_scope cfg st _ rfl rfl rfl,
      if_neg (by decide : ¬ pyStrip "06".toList = []),
      if_neg (by decide : ¬ matchesDigits (pyStrip "06".toList) = false), hc]
    simp only [hn]
    rw [if_neg (by simp), if_neg ha]

/-- Claim C2 witness at concrete configuration, state and author. -/
theorem format_guard_strict_witness :
    evaluate ⟨1, 2⟩ ⟨some 5, some 10⟩ ⟨20, some 1, 2, "+6", false⟩ =
      Verdict.reject true ∧
    evaluate ⟨1, 2⟩ ⟨some 5, some 10⟩ ⟨20, some 1, 2, "6.0", false⟩ =
      Verdict.reject true ∧
    evaluate ⟨1, 2⟩ ⟨some 5, some 10⟩ ⟨20, some 1, 2, "６", false⟩ =
      Verdict.reject true ∧
    evaluate ⟨1, 2⟩ ⟨some 5, some 10⟩ ⟨20, some 1, 2, "6 ", false⟩ =
      evaluate ⟨1, 2⟩ ⟨some 5, some 10⟩ ⟨20, some 1, 2, "6", false⟩ ∧
    (∀ c : Nat, (⟨some 5, some 10⟩ : ChannelState).count = some c →
      parseDigits (pyStrip "06".toList) = c + 1 →
      some 20 ≠ (⟨some 5, some 10⟩ : ChannelState).previousAuthorId →
      evaluate ⟨1, 2⟩ ⟨some 5, some 10⟩ ⟨20, some 1, 2, "06", false⟩ =
        Verdict.accept) :=
  format_guard_strict ⟨1, 2⟩ ⟨some 5, some 10⟩ 20

/-- Claim C3 counterexample: with the state initialized (count 5), an in-scope
empty message gets verdict REJECT with suppress = true, not suppress = false
as the claim states for every non-accepted case. -/
theorem post_init_empty_reject_flag :
    evaluate ⟨1, 2⟩ ⟨some 5, some 10⟩ ⟨20, some 1, 2, "", false⟩ =
      Verdict.reject true ∧
    Verdict.reject true ≠ Verdict.reject false := by
  constructor
  · decide
  · decide

/-- Claim C3 amended: with the state initialized, an in-scope message is
ACCEPTed iff its trimmed text is one or more ASCII digits parsing to
count + 1 and its author differs from the last author; in every other case
the verdict is REJECT and the message is deleted (the suppress flag is true
for empty or malformed text, but with count set it still forces deletion). -/
theorem post_init_accept_iff (cfg : Config) (st : ChannelState)
    (msg : IncomingMessage) (c : Nat) (hc : st.count = some c)
    (h1 : msg.isFromSelf = false) (h2 : msg.guildId = some cfg.serverId)
    (h3 : msg.channelId = cfg.channelId) :
    (evaluate cfg st msg = Verdict.accept ↔
      (matchesDigits (pyStrip msg.rawText.toList) = true ∧
       parseDigits (pyStrip msg.rawText.toList) = c + 1 ∧
       some msg.authorId ≠ st.previousAuthorId)) ∧
    (evaluate cfg st msg ≠ Verdict.accept →
      ∃ b, evaluate cfg st msg = Verdict.reject b ∧
        deletesMessage st (Verdict.reject b) = true) := by
  rw [evaluate_in_scope_some cfg st msg c h1 h2 h3 hc]
  have hdel : deletesMessage st (Verdict.reject true) = true := by
    simp [deletesMessage, hc]
  by_cases hl : pyStrip msg.rawText.toList = []
  · rw [if_pos hl]
    constructor
    · constructor
      · intro h; exact absurd h (by simp)
      · rintro ⟨hd, -, -⟩
        rw [hl] at hd
        exact absurd hd (by decide)
    · intro _; exact ⟨true, rfl, hdel⟩
  · rw [if_neg hl]
    by_cases hm : matchesDigits (pyStrip msg.rawText.toList) = false
    · rw [if_pos hm]
      constructor
      · constructor
        · intro h; exact absurd h (by simp)
        · rintro ⟨hd, -, -⟩
          rw [hm] at hd
          exact absurd hd (by decide)
      · intro _; exact ⟨true, rfl, hdel⟩
    · rw [if_neg hm]
      have hm' : matchesDigits (pyStrip msg.rawText.toList) = true := by
        simpa using hm
      by_cases hn : parseDigits (pyStrip msg.rawText.toList) = c + 1
      · rw [if_neg (by simpa using hn)]
        by_cases ha : some msg.authorId = st.previousAuthorId
        · rw [if_pos ha]
          constructor
          · constructor
            · intro h; exact absurd h (by simp)
            · rintro ⟨-, -, ha'⟩; exact absurd ha ha'
          · intro _
            exact ⟨false, rfl, by simp [deletesMessage]⟩
        · rw [if_neg ha]
          constructor
          · constructor
            · intro _; exact ⟨hm', hn, ha⟩
            · intro _; rfl
          · intro h; exact absurd rfl h
      · rw [if_pos hn]
        constructor
        · constructor
          · intro h; exact absurd h (by simp)
          · rintro ⟨-, hn', -⟩; exact absurd hn' hn
        · intro _
          exact ⟨false, rfl, by simp [deletesMessage]⟩

/-- Claim C3 witness at the accepted message "6" on count 5. -/
theorem post_init_accept_iff_witness :
    (evaluate ⟨1, 2⟩ ⟨some 5, some 10⟩ ⟨20, some 1, 2, "6", false⟩ =
        Verdict.accept ↔
      (matchesDigits (pyStrip "6".toList) = true ∧
       parseDigits (pyStrip "6".toList) = 5 + 1 ∧
       some 20 ≠ (⟨some 5, some 10⟩ : ChannelState).previousAuthorId)) ∧
    (evaluate ⟨1, 2⟩ ⟨some 5, some 10⟩ ⟨20, some 1, 2, "6", false⟩ ≠
        Verdict.accept →
      ∃ b, evaluate ⟨1, 2⟩ ⟨some 5, some 10⟩ ⟨20, some 1, 2, "6", false⟩ =
          Verdict.reject b ∧
        deletesMessage ⟨some 5, some 10⟩ (Verdict.reject b) = true) :=
  post_init_accept_iff ⟨1, 2⟩ ⟨some 5, some 10⟩ ⟨20, some 1, 2, "6", false⟩ 5
    rfl rfl rfl rfl

/-- Claim C4: while the state is uninitialized, no message is ever deleted;
and every empty or malformed in-scope message is rejected with suppression
and leaves the state unchanged. -/
theorem uninit_never_deletes (cfg : Config) (st : ChannelState)
    (msg : IncomingMessage) (h : st.count = none) :
    deletesMessage st (evaluate cfg st msg) = false ∧
    (msg.isFromSelf = false → msg.guildId = some cfg.serverId →
     msg.channelId = cfg.channelId →
     (pyStrip msg.rawText.toList = [] ∨
      matchesDigits (pyStrip msg.rawText.toList) = false) →
     evaluate cfg st msg = Verdict.reject true ∧ (step cfg st msg).2 = st) := by
  constructor
  · rcases evaluate_cases_uninit cfg st msg h with he | he | he <;>
      simp [he, deletesMessage, h]
  · intro h1 h2 h3 hmal
    have he : evaluate cfg st msg = Verdict.reject true := by
      rw [evaluate_in_scope cfg st msg h1 h2 h3]
      rcases hmal with hl | hm
      · rw [if_pos hl]
      · by_cases hl : pyStrip msg.rawText.toList = []
        · rw [if_pos hl]
        · rw [if_neg hl, if_pos hm]
    exact ⟨he, step_snd_of_ne_accept cfg st msg (by simp [he])⟩

/-- Claim C4 witness: non-numeric chatter before initialization. -/
theorem uninit_never_deletes_witness :
    deletesMessage ⟨none, none⟩
      (evaluate ⟨1, 2⟩ ⟨none, none⟩ ⟨20, some 1, 2, "hello", false⟩) = false ∧
    ((false : Bool) = false → (some 1 : Option Nat) = some 1 →
     (2 : Nat) = 2 →
     (pyStrip "hello".toList = [] ∨
      matchesDigits (pyStrip "hello".toList) = false) →
     evaluate ⟨1, 2⟩ ⟨none, none⟩ ⟨20, some 1, 2, "hello", false⟩ =
       Verdict.reject true ∧
     (step ⟨1, 2⟩ ⟨none, none⟩ ⟨20, some 1, 2, "hello", false⟩).2 =
       ⟨none, none⟩) :=
  uninit_never_deletes ⟨1, 2⟩ ⟨none, none⟩ ⟨20, some 1, 2, "hello", false⟩ rfl

/-- Claim C5: the first in-scope message whose trimmed text is a positive
integer in ASCII digits is ACCEPTed and seeds the state with that value and
that author, whatever the magnitude or the author. -/
theorem first_valid_message_seeds (cfg : Config) (st : ChannelState)
    (msg : IncomingMessage) (h : st.count = none)
    (h1 : msg.isFromSelf = false) (h2 : msg.guildId = some cfg.serverId)
    (h3 : msg.channelId = cfg.channelId)
    (hdig : matchesDigits (pyStrip msg.rawText.toList) = true)
    (hpos : 0 < parseDigits (pyStrip msg.rawText.toList)) :
    (step cfg st msg).1 = Verdict.accept ∧
    (step cfg st msg).2 =
      ⟨some (parseDigits (pyStrip msg.rawText.toList)), some msg.authorId⟩ := by
  have hl : ¬ pyStrip msg.rawText.toList = [] := by
    intro hl
    rw [hl] at hdig
    exact absurd hdig (by decide)
  have he : evaluate cfg st msg = Verdict.accept := by
    rw [evaluate_in_scope cfg st msg h1 h2 h3, if_neg hl,
      if_neg (by rw [hdig]; decide), h]
  exact ⟨by rw [step_fst, he], step_snd_accept cfg st msg he⟩

/-- Claim C5 witness: seeding with "42" from the fresh state. -/
theorem first_valid_message_seeds_witness :
    (step ⟨1, 2⟩ ⟨none, none⟩ ⟨20, some 1, 2, "42", false⟩).1 =
      Verdict.accept ∧
    (step ⟨1, 2⟩ ⟨none, none⟩ ⟨20, some 1, 2, "42", false⟩).2 =
      ⟨some (parseDigits (pyStrip "42".toList)), some 20⟩ :=
  first_valid_message_seeds ⟨1, 2⟩ ⟨none, none⟩ ⟨20, some 1, 2, "42", false⟩
    rfl rfl rfl rfl (by decide) (by decide)

/-- Claim C6: out-of-scope messages (from the bot itself, or wrong guild, or
wrong channel) are IGNOREd with the state unchanged, and repeating such a
message any number of times never mutates the state. -/
theorem out_of_scope_ignored (cfg : Config) (st : ChannelState)
    (msg : IncomingMessage)
    (h : msg.isFromSelf = true ∨ msg.guildId ≠ some cfg.serverId ∨
         msg.channelId ≠ cfg.channelId) :
    (step cfg st msg).1 = Verdict.ignore ∧ (step cfg st msg).2 = st ∧
    ∀ n : Nat, runMessages cfg (List.replicate n msg) st = st := by
  have he := evaluate_scope_ignore cfg st msg h
  have hs : (step cfg st msg).2 = st :=
    step_snd_of_ne_accept cfg st msg (by simp [he])
  refine ⟨by rw [step_fst, he], hs, ?_⟩
  intro n
  induction n with
  | zero => rfl
  | succ n ih =>
      rw [List.replicate_succ]
      show runMessages cfg (List.replicate n msg) ((step cfg st msg).2) = st
      rw [hs]
      exact ih

/-- Claim C6 witness: the bot's own message is ignored any number of times. -/
theorem out_of_scope_ignored_witness :
    (step ⟨1, 2⟩ ⟨some 5, some 10⟩ ⟨20, some 1, 2, "6", true⟩).1 =
      Verdict.ignore ∧
    (step ⟨1, 2⟩ ⟨some 5, some 10⟩ ⟨20, some 1, 2, "6", true⟩).2 =
      ⟨some 5, some 10⟩ ∧
    ∀ n : Nat, runMessages ⟨1, 2⟩
      (List.replicate n ⟨20, some 1, 2, "6", true⟩) ⟨some 5, some 10⟩ =
      ⟨some 5, some 10⟩ :=
  out_of_scope_ignored ⟨1, 2⟩ ⟨some 5, some 10⟩ ⟨20, some 1, 2, "6", true⟩
    (Or.inl rfl)

/-- Claim C7: in every state reachable from the initial state, count and
previousAuthorId are both none or both set, and every ACCEPT sets the two
fields together. -/
theorem count_author_together (cfg : Config) (msgs : List IncomingMessage) :
    ((runMessages cfg msgs initialState).count.isSome =
      (runMessages cfg msgs initialState).previousAuthorId.isSome) ∧
    (∀ (st : ChannelState) (msg : IncomingMessage),
      (step cfg st msg).1 = Verdict.accept →
      ((step cfg st msg).2).count.isSome = true ∧
      ((step cfg st msg).2).previousAuthorId.isSome = true) := by
  constructor
  · exact runMessages_together cfg msgs initialState rfl
  · intro st msg hacc
    rw [step_fst] at hacc
    rw [step_snd_accept cfg st msg hacc]
    exact ⟨rfl, rfl⟩

/-- Claim C7 witness on a concrete run. -/
theorem count_author_together_witness :
    ((runMessages ⟨1, 2⟩ [⟨20, some 1, 2, "1", false⟩]
        initialState).count.isSome =
      (runMessages ⟨1, 2⟩ [⟨20, some 1, 2, "1", false⟩]
        initialState).previousAuthorId.isSome) ∧
    (∀ (st : ChannelState) (msg : IncomingMessage),
      (step ⟨1, 2⟩ st msg).1 = Verdict.accept →
      ((step ⟨1, 2⟩ st msg).2).count.isSome = true ∧
      ((step ⟨1, 2⟩ st msg).2).previousAuthorId.isSome = true) :=
  count_author_together ⟨1, 2⟩ [⟨20, some 1, 2, "1", false⟩]

/-- Claim C8: a non-ACCEPT verdict leaves the state exactly as it was; in
particular from count 5 / last author 10, "7" by author 20 is rejected with
the state intact, and the subsequent "6" by author 20 is accepted against
count 5. -/
theorem reject_preserves_state (cfg : Config) (st : ChannelState)
    (msg : IncomingMessage) (h : (step cfg st msg).1 ≠ Verdict.accept) :
    (step cfg st msg).2 = st ∧
    step ⟨1, 2⟩ ⟨some 5, some 10⟩ ⟨20, some 1, 2, "7", false⟩ =
      (Verdict.reject false, ⟨some 5, some 10⟩) ∧
    step ⟨1, 2⟩ ⟨some 5, some 10⟩ ⟨20, some 1, 2, "6", false⟩ =
      (Verdict.accept, ⟨some 6, some 20⟩) := by
  refine ⟨?_, by decide, by decide⟩
  exact step_snd_of_ne_accept cfg st msg (by rwa [step_fst] at h)

/-- Claim C8 witness at a concrete rejected message. -/
theorem reject_preserves_state_witness :
    (step ⟨1, 2⟩ ⟨some 5, some 10⟩ ⟨20, some 1, 2, "9", false⟩).2 =
      ⟨some 5, some 10⟩ ∧
    step ⟨1, 2⟩ ⟨some 5, some 10⟩ ⟨20, some 1, 2, "7", false⟩ =
      (Verdict.reject false, ⟨some 5, some 10⟩) ∧
    step ⟨1, 2⟩ ⟨some 5, some 10⟩ ⟨20, some 1, 2, "6", false⟩ =
      (Verdict.accept, ⟨some 6, some 20⟩) :=
  reject_preserves_state ⟨1, 2⟩ ⟨some 5, some 10⟩ ⟨20, some 1, 2, "9", false⟩
    (by decide)

/-- Claim C9: once count is set, a step either leaves the state untouched or
advances count to exactly its successor; in particular every ACCEPT from an
initialized state sets count to the previous count plus one, and count never
returns to none. -/
theorem count_steps_by_one (cfg : Config) (st : ChannelState)
    (msg : IncomingMessage) (c : Nat) (hc : st.count = some c) :
    ((step cfg st msg).2 = st ∨
      ((step cfg st msg).2).count = some (c + 1)) ∧
    ((step cfg st msg).1 = Verdict.accept →
      ((step cfg st msg).2).count = some (c + 1)) := by
  by_cases hv : evaluate cfg st msg = Verdict.accept
  · have hp := evaluate_accept_parse cfg st msg c hc hv
    have hsnd := step_snd_accept cfg st msg hv
    have hcount : ((step cfg st msg).2).count = some (c + 1) := by
      rw [hsnd, hp]
    exact ⟨Or.inr hcount, fun _ => hcount⟩
  · have hsnd := step_snd_of_ne_accept cfg st msg hv
    refine ⟨Or.inl hsnd, fun ha => ?_⟩
    rw [step_fst] at ha
    exact absurd ha hv

/-- Claim C9 witness: accepting "6" on count 5 advances the count to 6. -/
theorem count_steps_by_one_witness :
    ((step ⟨1, 2⟩ ⟨some 5, some 10⟩ ⟨20, some 1, 2, "6", false⟩).2 =
        ⟨some 5, some 10⟩ ∨
      ((step ⟨1, 2⟩ ⟨some 5, some 10⟩ ⟨20, some 1, 2, "6", false⟩).2).count =
        some (5 + 1)) ∧
    ((step ⟨1, 2⟩ ⟨some 5, some 10⟩ ⟨20, some 1, 2, "6", false⟩).1 =
        Verdict.accept →
      ((step ⟨1, 2⟩ ⟨some 5, some 10⟩ ⟨20, some 1, 2, "6", false⟩).2).count =
        some (5 + 1)) :=
  count_steps_by_one ⟨1, 2⟩ ⟨some 5, some 10⟩ ⟨20, some 1, 2, "6", false⟩ 5 rfl

/-- Claim C10: a message with no guild (a direct message) is always IGNOREd:
never deleted, never a state change, for every state and content. -/
theorem dm_always_ignored (cfg : Config) (st : ChannelState)
    (msg : IncomingMessage) (h : msg.guildId = none) :
    evaluate cfg st msg = Verdict.ignore ∧
    deletesMessage st (evaluate cfg st msg) = false ∧
    (step cfg st msg).2 = st := by
  have he : evaluate cfg st msg = Verdict.ignore :=
    evaluate_scope_ignore cfg st msg (Or.inr (Or.inl (by simp [h])))
  exact ⟨he, by simp [he, deletesMessage],
    step_snd_of_ne_accept cfg st msg (by simp [he])⟩

/-- Claim C10 witness on a direct message carrying the correct next number. -/
theorem dm_always_ignored_witness :
    evaluate ⟨1, 2⟩ ⟨some 5, some 10⟩ ⟨20, none, 2, "6", false⟩ =
      Verdict.ignore ∧
    deletesMessage ⟨some 5, some 10⟩
      (evaluate ⟨1, 2⟩ ⟨some 5, some 10⟩ ⟨20, none, 2, "6", false⟩) = false ∧
    (step ⟨1, 2⟩ ⟨some 5, some 10⟩ ⟨20, none, 2, "6", false⟩).2 =
      ⟨some 5, some 10⟩ :=
  dm_always_ignored ⟨1, 2⟩ ⟨some 5, some 10⟩ ⟨20, none, 2, "6", false⟩ rfl

end CountingBot
